import Mathlib

/-!
Shallow embedding of `src/filefitness.py` (cwbooth5/filefitness), a checker
for `.fit` and `.gpx` fitness-activity files.

Modelling conventions:
* Python byte buffers (`io.BytesIO`) are `List Nat` (one entry per byte);
  `fileobj.getvalue()` is the list itself.
* The two external parsing libraries, `fitparse` and `gpxpy`, are modelled
  by oracle functions mapping the raw bytes to an observable outcome
  (`FitOutcome`, `GpxOutcome`); the checkers' control flow around those
  outcomes is translated from the source line by line.
* Python exceptions become an explicit `Except PyExn` result; a function
  "raises" by returning `Except.error`.  `ActivityDefective` carries its
  message string; `ZeroDivisionError` and `UnicodeDecodeError` model the
  unclassified exceptions the source can let escape.
* `LOG` calls become an accumulated `List LogLine` returned next to the
  result, in emission order.
* Numeric readings (`record_data.value`, `int(extension.text)`) are
  modelled as `Int`; Python's `round(sum(xs) / len(xs))` is modelled
  exactly on rationals by `pyRound` (round half to even, Python's rule),
  and a zero denominator is the `ZeroDivisionError` site.
-/

/-- Log severities used by the script (`LOG.debug` / `LOG.info` / `LOG.error`). -/
inductive LogLevel where
  | debug
  | info
  | error
  deriving DecidableEq, Repr

/-- One emitted log line: severity plus formatted message. -/
structure LogLine where
  level : LogLevel
  msg : String
  deriving DecidableEq, Repr

/-- Python exceptions visible at the boundaries of this program.
`activityDefective` is the script's own classified-failure class
(`class ActivityDefective(Exception)`); the other two are built-in /
library exceptions that the script does not catch everywhere. -/
inductive PyExn where
  | activityDefective (msg : String)
  | zeroDivisionError
  | unicodeDecodeError (msg : String)
  deriving DecidableEq, Repr

/-- `Activity` dataclass: `name: str`, `fileobj: io.BytesIO` (held as its bytes). -/
structure Activity where
  name : String
  fileobj : List Nat
  deriving DecidableEq, Repr

/-- Python's `str.split(sep)` for a one-character separator, on char lists:
always returns at least one (possibly empty) piece. -/
def splitOnChar (sep : Char) : List Char → List (List Char)
  | [] => [[]]
  | x :: xs =>
    let rest := splitOnChar sep xs
    if x == sep then [] :: rest
    else
      match rest with
      | [] => [[x]]
      | piece :: pieces => (x :: piece) :: pieces

/-- Python's `str.lower()` (ASCII case folding), on char lists. -/
def pyLower (s : String) : List Char :=
  s.toList.map Char.toLower

/-- `Activity.extension`: `return self.name.split('.')[-1]`. -/
def Activity.extension (a : Activity) : String :=
  String.mk ((splitOnChar '.' a.name.toList).getLastD [])

/-- `Activity.md5sum`: `hashlib.md5(self.fileobj.getvalue()).hexdigest()`.
The MD5 digest itself lives in Python's `hashlib`; it is modelled as an
explicit digest-function argument applied to the exact byte buffer, which
is all the script's code does with it. -/
def Activity.md5sum (md5hex : List Nat → String) (a : Activity) : String :=
  md5hex a.fileobj

/-- Python's `round` on the exact quotient `num / den` (`den > 0`expected):
nearest integer, ties to even (banker's rounding). -/
def pyRound (num : Int) (den : Int) : Int :=
  let f := Int.fdiv num den
  let r := num - f * den
  if 2 * r < den then f
  else if 2 * r > den then f + 1
  else if f % 2 = 0 then f else f + 1

/-- The shared `LOG.info(f'... Average Power: ..., Average HR: ...')` line
emitted by both checkers. -/
def avgLine (name : String) (power hr : Int) : LogLine :=
  ⟨LogLevel.info,
    name ++ " Average Power: " ++ toString power ++ ", Average HR: " ++ toString hr⟩

/-! ### fitparse model (`FitFile`, `get_messages('record')`) -/

/-- The `fitparse.utils` exceptions the script catches mid-stream
(`FitCRCError`, `FitParseError`, `FitHeaderError`, `FitEOFError`),
each carrying its `str(err)` message. -/
inductive FitStreamError where
  | crcError (msg : String)
  | parseError (msg : String)
  | headerError (msg : String)
  | eofError (msg : String)
  deriving DecidableEq, Repr

/-- `str(err)` of a fitparse exception. -/
def FitStreamError.message : FitStreamError → String
  | .crcError msg => msg
  | .parseError msg => msg
  | .headerError msg => msg
  | .eofError msg => msg

/-- One field of a `record` message: `record_data.name` and `record_data.value`. -/
structure RecordData where
  name : String
  value : Int
  deriving DecidableEq, Repr

/-- Observable behaviour of `fitparse` on one byte buffer:
either the `FitFile(...)` constructor raises `FitHeaderError`
(header absent / malformed / file zero-length or truncated), or the file
opens and iterating `get_messages('record')` yields `records` — with
`streamErr = some e` when iteration then raises `e` mid-stream. -/
inductive FitOutcome where
  | ctorHeaderError (msg : String)
  | parsed (records : List (List RecordData)) (streamErr : Option FitStreamError)
  deriving DecidableEq, Repr

/-- `check_fit`, translated from the source.  `fitFileParse` is the
`fitparse` oracle for this byte buffer. -/
def check_fit (fitFileParse : List Nat → FitOutcome) (fit_file : Activity) :
    Except PyExn Unit × List LogLine :=
  let n := fit_file.name
  match fitFileParse fit_file.fileobj with
  | .ctorHeaderError _ =>
      -- `except FitHeaderError: raise ActivityDefective(f'{fit_file.name} truncated')`
      (Except.error (PyExn.activityDefective (n ++ " truncated")), [])
  | .parsed records streamErr =>
      match streamErr with
      | some e =>
          -- `except (FitCRCError, FitParseError, FitHeaderError, FitEOFError) as err:
          --    raise ActivityDefective(err)`
          (Except.error (PyExn.activityDefective e.message), [])
      | none =>
          let power_readings :=
            ((records.flatten).filter (fun rd => rd.name == "power")).map
              (fun rd => rd.value)
          let hr_readings :=
            ((records.flatten).filter (fun rd => rd.name == "heart_rate")).map
              (fun rd => rd.value)
          -- `power = round(sum(power_readings) / len(power_readings))` then hr:
          -- a zero length raises ZeroDivisionError, which the except clause
          -- above does NOT catch, so it escapes check_fit.
          if power_readings.length = 0 then
            (Except.error PyExn.zeroDivisionError, [])
          else if hr_readings.length = 0 then
            (Except.error PyExn.zeroDivisionError, [])
          else
            let power := pyRound power_readings.sum (power_readings.length : Int)
            let hr := pyRound hr_readings.sum (hr_readings.length : Int)
            (Except.ok (), [avgLine n power hr])

/-! ### gpxpy model (parsed XML track structure) -/

/-- A nested child of a trackpoint extension element (`kid.tag`,
`int(kid.text)`; the text is modelled as its integer value). -/
structure GpxSubElem where
  tag : String
  value : Int
  deriving DecidableEq, Repr

/-- One entry of `point.extensions`: its tag, `int(extension.text)` as
`value`, and its child elements (`list(extension)`). -/
structure GpxExtElem where
  tag : String
  value : Int
  children : List GpxSubElem
  deriving DecidableEq, Repr

/-- One trackpoint, exposing `point.extensions`. -/
structure GpxPoint where
  extensions : List GpxExtElem
  deriving DecidableEq, Repr

/-- One track segment, exposing `segment.points`. -/
structure GpxSegment where
  points : List GpxPoint
  deriving DecidableEq, Repr

/-- One track, exposing `track.segments`. -/
structure GpxTrack where
  segments : List GpxSegment
  deriving DecidableEq, Repr

/-- A parsed GPX document, exposing `gpx.tracks`. -/
structure Gpx where
  tracks : List GpxTrack
  deriving DecidableEq, Repr

/-- Observable behaviour of `gpx_file.fileobj.getvalue().decode('utf-8')`
followed by `gpxpy.parse` on one byte buffer: the decode raises
`UnicodeDecodeError`, or the parse raises `GPXXMLSyntaxException`, or
parsing succeeds with document `g`. -/
inductive GpxOutcome where
  | decodeError (msg : String)
  | malformedXml (msg : String)
  | ok (g : Gpx)
  deriving DecidableEq, Repr

/-- The Garmin TrackPointExtension namespace prefix used by `check_gpx`. -/
def schema : String :=
  "\x7bhttp://www.garmin.com/xmlschemas/TrackPointExtension/v1\x7d"

/-- Is `needle` a contiguous substring of `hay`?  (Python's `in` on strings.) -/
def listContainsSub (needle : List Char) : List Char → Bool
  | [] => needle.isEmpty
  | c :: rest => needle.isPrefixOf (c :: rest) || listContainsSub needle rest

/-- `'ride' in gpx_file.name.lower()`. -/
def hasRide (name : String) : Bool :=
  listContainsSub "ride".toList (pyLower name)

/-- All points of the document in traversal order
(`for track in gpx.tracks: for segment in track.segments: for point in segment.points`). -/
def gpxPoints (g : Gpx) : List GpxPoint :=
  g.tracks.flatMap (fun track => track.segments.flatMap (fun segment => segment.points))

/-- Power readings one point contributes:
`if extension.tag == 'power': power_readings.append(int(extension.text))`. -/
def pointPowerReadings (point : GpxPoint) : List Int :=
  (point.extensions.filter (fun e => e.tag == "power")).map (fun e => e.value)

/-- Heart-rate readings one point contributes:
`if extension.tag == f'{schema}TrackPointExtension': for kid in list(extension):
if kid.tag == f'{schema}hr': hr_readings.append(int(kid.text))`. -/
def pointHrReadings (point : GpxPoint) : List Int :=
  (point.extensions.filter (fun e => e.tag == schema ++ "TrackPointExtension")).flatMap
    (fun e => (e.children.filter (fun kid => kid.tag == schema ++ "hr")).map
      (fun kid => kid.value))

/-- `power_readings` accumulated by the loop in `check_gpx`: the per-point
`if 'ride' in gpx_file.name.lower()` guard sits inside the point loop. -/
def gpxPowerReadings (name : String) (g : Gpx) : List Int :=
  (gpxPoints g).flatMap (fun point =>
    if hasRide name then pointPowerReadings point else [])

/-- `hr_readings` accumulated by the loop in `check_gpx`. -/
def gpxHrReadings (name : String) (g : Gpx) : List Int :=
  (gpxPoints g).flatMap (fun point =>
    if hasRide name then pointHrReadings point else [])

/-- `check_gpx`, translated from the source.  `gpxpyParse` is the decode +
`gpxpy.parse` oracle for this byte buffer. -/
def check_gpx (gpxpyParse : List Nat → GpxOutcome) (gpx_file : Activity) :
    Except PyExn Unit × List LogLine :=
  let n := gpx_file.name
  match gpxpyParse gpx_file.fileobj with
  | .decodeError msg =>
      -- UnicodeDecodeError is not in the except clause: it escapes check_gpx.
      (Except.error (PyExn.unicodeDecodeError msg), [])
  | .malformedXml msg =>
      -- `except gpxpy.gpx.GPXXMLSyntaxException as err:
      --    raise ActivityDefective(f'{gpx_file.name} - {err}')`
      (Except.error (PyExn.activityDefective (n ++ " - " ++ msg)), [])
  | .ok g =>
      let power_readings := gpxPowerReadings n g
      let hr_readings := gpxHrReadings n g
      -- `except ZeroDivisionError: pass` — an empty list makes the mean
      -- raise, the handler swallows it, and nothing is logged.
      if power_readings.length = 0 then
        (Except.ok (), [])
      else if hr_readings.length = 0 then
        (Except.ok (), [])
      else
        let power := pyRound power_readings.sum (power_readings.length : Int)
        let hr := pyRound hr_readings.sum (hr_readings.length : Int)
        (Except.ok (), [avgLine n power hr])

/-! ### Integrity evaluator and batch driver -/

/-- The body of `integritycheck`'s `try:` block — dispatch on the raw
extension (case-sensitive `==` against `'fit'` / `'gpx'`); any other
extension runs no checker and raises nothing. -/
def dispatchCheck (fitFileParse : List Nat → FitOutcome)
    (gpxpyParse : List Nat → GpxOutcome) (activity : Activity) :
    Except PyExn Unit × List LogLine :=
  if activity.extension == "fit" then check_fit fitFileParse activity
  else if activity.extension == "gpx" then check_gpx gpxpyParse activity
  else (Except.ok (), [])

/-- `integritycheck(activity)`: run the dispatched checker;
`except ActivityDefective as err: LOG.error(f'{activity.name} {err}'); return False`,
`else: LOG.info(f'{activity.name} Integrity OK'); return True`.
Exceptions other than `ActivityDefective` propagate out. -/
def integritycheck (fitFileParse : List Nat → FitOutcome)
    (gpxpyParse : List Nat → GpxOutcome) (activity : Activity) :
    Except PyExn Bool × List LogLine :=
  let n := activity.name
  match dispatchCheck fitFileParse gpxpyParse activity with
  | (Except.error (PyExn.activityDefective msg), logs) =>
      (Except.ok false, logs ++ [⟨LogLevel.error, n ++ " " ++ msg⟩])
  | (Except.error e, logs) => (Except.error e, logs)
  | (Except.ok _, logs) =>
      (Except.ok true, logs ++ [⟨LogLevel.info, n ++ " Integrity OK"⟩])

/-- `file.lower().endswith('.fit')` / `'.gpx'` — the driver's
(case-insensitive) eligibility test for one target path. -/
def keepFile (file : String) : Bool :=
  ".fit".toList.isSuffixOf (pyLower file) || ".gpx".toList.isSuffixOf (pyLower file)

/-- The driver's collection loop (`for file in targets:` in `main`): build
`streams` in order, reading each kept file's bytes through `fs` (the
filesystem), and emit a `LOG.debug(f'File skipped: {file}')` line for each
rejected path. -/
def collectStreams (fs : String → List Nat) : List String → List Activity × List LogLine
  | [] => ([], [])
  | file :: rest =>
    let r := collectStreams fs rest
    if !(keepFile file) then
      (r.1, ⟨LogLevel.debug, "File skipped: " ++ file⟩ :: r.2)
    else
      (⟨file, fs file⟩ :: r.1, r.2)

/-- The driver's evaluation loop (`for x in streams: integritycheck(x)`):
sequential; an exception escaping `integritycheck` aborts the run.  The
verdict of each call is recorded (the source observes it only via logs). -/
def runChecks (fitFileParse : List Nat → FitOutcome)
    (gpxpyParse : List Nat → GpxOutcome) :
    List Activity → Except PyExn (List Bool) × List LogLine
  | [] => (Except.ok [], [])
  | a :: rest =>
    match integritycheck fitFileParse gpxpyParse a with
    | (Except.error e, logs) => (Except.error e, logs)
    | (Except.ok b, logs) =>
      match runChecks fitFileParse gpxpyParse rest with
      | (Except.ok bs, logs2) => (Except.ok (b :: bs), logs ++ logs2)
      | (Except.error e, logs2) => (Except.error e, logs ++ logs2)

/-- `main(targets)`: collect the eligible files, then evaluate them in
discovery order. -/
def main' (fitFileParse : List Nat → FitOutcome)
    (gpxpyParse : List Nat → GpxOutcome) (fs : String → List Nat)
    (targets : List String) : Except PyExn (List Bool) × List LogLine :=
  let (streams, logs1) := collectStreams fs targets
  let (res, logs2) := runChecks fitFileParse gpxpyParse streams
  (res, logs1 ++ logs2)

example :
    check_gpx (fun _ => GpxOutcome.malformedXml "boom") ⟨"a.gpx", [0]⟩
      = (Except.error (PyExn.activityDefective "a.gpx - boom"), []) := rfl

example : (Activity.mk "x.FIT" []).extension = "FIT" := by decide

example : hasRide "myRIDE.gpx" = true := by decide

example : hasRide "walk.gpx" = false := by decide

example : pyRound 3 2 = 2 := rfl

example : pyRound 1 2 = 0 := rfl

/-! ### Helper instances and lemmas -/

deriving instance DecidableEq for Except

/-- Is a `PyExn` the script's own classified failure (`ActivityDefective`)? -/
def PyExn.isDefective : PyExn → Bool
  | .activityDefective _ => true
  | .zeroDivisionError => false
  | .unicodeDecodeError _ => false

/-- A successful evaluation loop records one verdict per collected activity. -/
theorem runChecks_length (fitFileParse : List Nat → FitOutcome)
    (gpxpyParse : List Nat → GpxOutcome) (acts : List Activity) :
    ∀ (bs : List Bool) (logs : List LogLine),
      runChecks fitFileParse gpxpyParse acts = (Except.ok bs, logs) →
      bs.length = acts.length := by
  induction acts with
  | nil =>
    intro bs logs h
    simp only [runChecks, Prod.mk.injEq, Except.ok.injEq] at h
    simp [← h.1]
  | cons a rest ih =>
    intro bs logs h
    rw [runChecks] at h
    rcases h1 : integritycheck fitFileParse gpxpyParse a with ⟨r, logs0⟩
    rw [h1] at h
    cases r with
    | error e => simp at h
    | ok b =>
      rcases h2 : runChecks fitFileParse gpxpyParse rest with ⟨r2, logs2⟩
      rw [h2] at h
      cases r2 with
      | error e => simp at h
      | ok bs2 =>
        simp only [Prod.mk.injEq, Except.ok.injEq] at h
        rw [← h.1, List.length_cons, ih bs2 logs2 h2]
        simp

/-! ### Claim theorems -/

/-- Claim C10: `md5sum` is a deterministic, side-effect-free function of the
exact byte buffer alone — any two Activities holding identical byte buffers,
however constructed or named, yield identical digests on every call. -/
theorem md5sum_deterministic (md5hex : List Nat → String) (a1 a2 : Activity)
    (h : a1.fileobj = a2.fileobj) :
    a1.md5sum md5hex = a2.md5sum md5hex := by
  simp [Activity.md5sum, h]

/-- Witness for C10: two differently named, separately constructed Activities
over the same bytes digest identically. -/
theorem md5sum_deterministic_witness :
    (Activity.mk "ride1.fit" [1, 2, 3]).fileobj
        = (Activity.mk "copy.gpx" [1, 2, 3]).fileobj ∧
    (Activity.mk "ride1.fit" [1, 2, 3]).md5sum (fun bs => toString bs.length)
        = (Activity.mk "copy.gpx" [1, 2, 3]).md5sum (fun bs => toString bs.length) :=
  ⟨rfl, md5sum_deterministic (fun bs => toString bs.length) _ _ rfl⟩

/-- Claim C9: an Activity whose raw extension is neither exactly `"fit"` nor
exactly `"gpx"` (e.g. an uppercase `.FIT` name) is dispatched to no checker,
yet `integritycheck` still returns `true` and logs an "Integrity OK" line. -/
theorem integritycheck_unknown_extension (fitFileParse : List Nat → FitOutcome)
    (gpxpyParse : List Nat → GpxOutcome) (a : Activity)
    (h1 : a.extension ≠ "fit") (h2 : a.extension ≠ "gpx") :
    integritycheck fitFileParse gpxpyParse a
      = (Except.ok true, [⟨LogLevel.info, a.name ++ " Integrity OK"⟩]) := by
  simp [integritycheck, dispatchCheck, h1, h2]

/-- Witness for C9: `x.FIT` has extension `"FIT"`; even with both library
oracles failing, no checker runs and the verdict is `true` / "Integrity OK". -/
theorem integritycheck_unknown_extension_witness :
    integritycheck (fun _ => FitOutcome.ctorHeaderError "bad")
        (fun _ => GpxOutcome.malformedXml "bad") (Activity.mk "x.FIT" [10])
      = (Except.ok true, [⟨LogLevel.info, "x.FIT Integrity OK"⟩]) :=
  integritycheck_unknown_extension _ _ _ (by decide) (by decide)

/-- Claim C5: when the fit header cannot be read (absent, malformed,
zero-length or truncated file — i.e. `FitFile(...)` raises
`FitHeaderError`), `check_fit` raises the classified failure
`ActivityDefective` with message `"<name> truncated"`, and `integritycheck`
returns `false`, logging an error line naming the file. -/
theorem check_fit_header_truncated (fitFileParse : List Nat → FitOutcome)
    (gpxpyParse : List Nat → GpxOutcome) (a : Activity) (msg : String)
    (hext : a.extension = "fit")
    (hhdr : fitFileParse a.fileobj = FitOutcome.ctorHeaderError msg) :
    check_fit fitFileParse a
      = (Except.error (PyExn.activityDefective (a.name ++ " truncated")), []) ∧
    integritycheck fitFileParse gpxpyParse a
      = (Except.ok false,
         [⟨LogLevel.error, a.name ++ " " ++ (a.name ++ " truncated")⟩]) := by
  constructor
  · simp [check_fit, hhdr]
  · simp [integritycheck, dispatchCheck, hext, check_fit, hhdr]

/-- Witness for C5: a zero-length `.fit` file whose header read fails. -/
theorem check_fit_header_truncated_witness :
    check_fit (fun _ => FitOutcome.ctorHeaderError "header eof")
        (Activity.mk "empty.fit" [])
      = (Except.error (PyExn.activityDefective "empty.fit truncated"), []) ∧
    integritycheck (fun _ => FitOutcome.ctorHeaderError "header eof")
        (fun _ => GpxOutcome.ok (Gpx.mk [])) (Activity.mk "empty.fit" [])
      = (Except.ok false,
         [⟨LogLevel.error, "empty.fit empty.fit truncated"⟩]) :=
  check_fit_header_truncated _ _ _ "header eof" (by decide) rfl

/-- Claim C6: when the XML fails to parse (`gpxpy.parse` raises
`GPXXMLSyntaxException` with the parser's message), `check_gpx` raises the
classified failure `ActivityDefective` carrying the file name and the
parser message, and `integritycheck` returns `false`. -/
theorem check_gpx_malformed_xml (fitFileParse : List Nat → FitOutcome)
    (gpxpyParse : List Nat → GpxOutcome) (a : Activity) (msg : String)
    (hext : a.extension = "gpx")
    (hxml : gpxpyParse a.fileobj = GpxOutcome.malformedXml msg) :
    check_gpx gpxpyParse a
      = (Except.error (PyExn.activityDefective (a.name ++ " - " ++ msg)), []) ∧
    integritycheck fitFileParse gpxpyParse a
      = (Except.ok false,
         [⟨LogLevel.error, a.name ++ " " ++ (a.name ++ " - " ++ msg)⟩]) := by
  constructor
  · simp [check_gpx, hxml]
  · simp [integritycheck, dispatchCheck, hext, check_gpx, hxml]

/-- Witness for C6: a `.gpx` file with an unclosed tag, reported through the
parser's message. -/
theorem check_gpx_malformed_xml_witness :
    check_gpx (fun _ => GpxOutcome.malformedXml "mismatched tag: line 3")
        (Activity.mk "course.gpx" [60])
      = (Except.error
          (PyExn.activityDefective "course.gpx - mismatched tag: line 3"), []) ∧
    integritycheck (fun _ => FitOutcome.parsed [] none)
        (fun _ => GpxOutcome.malformedXml "mismatched tag: line 3")
        (Activity.mk "course.gpx" [60])
      = (Except.ok false,
         [⟨LogLevel.error, "course.gpx course.gpx - mismatched tag: line 3"⟩]) :=
  check_gpx_malformed_xml _ _ _ "mismatched tag: line 3" (by decide) rfl

/-- Claim C3: `integritycheck` runs the checker matching the extension
(`check_fit` for `"fit"`, `check_gpx` for `"gpx"`); when that checker raises
a classified failure it logs an error line naming the file and returns
`false`, and when it returns without exception it logs
`"<name> Integrity OK"` and returns `true`. -/
theorem integritycheck_verdict (fitFileParse : List Nat → FitOutcome)
    (gpxpyParse : List Nat → GpxOutcome) (a : Activity) :
    (a.extension = "fit" →
        dispatchCheck fitFileParse gpxpyParse a = check_fit fitFileParse a) ∧
    (a.extension = "gpx" →
        dispatchCheck fitFileParse gpxpyParse a = check_gpx gpxpyParse a) ∧
    (∀ msg logs,
        dispatchCheck fitFileParse gpxpyParse a
            = (Except.error (PyExn.activityDefective msg), logs) →
        integritycheck fitFileParse gpxpyParse a
            = (Except.ok false, logs ++ [⟨LogLevel.error, a.name ++ " " ++ msg⟩])) ∧
    (∀ logs,
        dispatchCheck fitFileParse gpxpyParse a = (Except.ok (), logs) →
        integritycheck fitFileParse gpxpyParse a
            = (Except.ok true, logs ++ [⟨LogLevel.info, a.name ++ " Integrity OK"⟩])) := by
  refine ⟨?_, ?_, ?_, ?_⟩
  · intro h; simp [dispatchCheck, h]
  · intro h; simp [dispatchCheck, h]
  · intro msg logs h; simp [integritycheck, h]
  · intro logs h; simp [integritycheck, h]

/-- Witness for C3: a valid `.fit` file with power and heart-rate readings
evaluates to `true` with an "Integrity OK" line after the averages line. -/
theorem integritycheck_verdict_witness :
    integritycheck
        (fun _ => FitOutcome.parsed
          [[RecordData.mk "power" 100, RecordData.mk "heart_rate" 150],
           [RecordData.mk "power" 200, RecordData.mk "heart_rate" 150]] none)
        (fun _ => GpxOutcome.ok (Gpx.mk [])) (Activity.mk "ride1.fit" [14])
      = (Except.ok true,
         [avgLine "ride1.fit" 150 150,
          ⟨LogLevel.info, "ride1.fit Integrity OK"⟩]) :=
  (integritycheck_verdict
      (fun _ => FitOutcome.parsed
        [[RecordData.mk "power" 100, RecordData.mk "heart_rate" 150],
         [RecordData.mk "power" 200, RecordData.mk "heart_rate" 150]] none)
      (fun _ => GpxOutcome.ok (Gpx.mk [])) (Activity.mk "ride1.fit" [14])).2.2.2
    [avgLine "ride1.fit" 150 150] (by decide)

/-- Claim C4: classified failures (`ActivityDefective`) are absorbed exactly
at the evaluator: `integritycheck` never propagates one; any other exception
raised by the dispatched checker (e.g. a UTF-8 decode error on a `.gpx`
input) passes through `integritycheck` unchanged, aborting the run. -/
theorem classified_failures_contained (fitFileParse : List Nat → FitOutcome)
    (gpxpyParse : List Nat → GpxOutcome) (a : Activity) :
    (∀ msg logs,
        integritycheck fitFileParse gpxpyParse a
          ≠ (Except.error (PyExn.activityDefective msg), logs)) ∧
    (∀ e logs, PyExn.isDefective e = false →
        dispatchCheck fitFileParse gpxpyParse a = (Except.error e, logs) →
        integritycheck fitFileParse gpxpyParse a = (Except.error e, logs)) ∧
    (∀ msg, a.extension = "gpx" →
        gpxpyParse a.fileobj = GpxOutcome.decodeError msg →
        integritycheck fitFileParse gpxpyParse a
          = (Except.error (PyExn.unicodeDecodeError msg), [])) := by
  refine ⟨?_, ?_, ?_⟩
  · intro msg logs h
    rcases hd : dispatchCheck fitFileParse gpxpyParse a with ⟨r, logs0⟩
    cases r with
    | ok u => simp [integritycheck, hd] at h
    | error e =>
      cases e with
      | activityDefective m => simp [integritycheck, hd] at h
      | zeroDivisionError => simp [integritycheck, hd] at h
      | unicodeDecodeError m => simp [integritycheck, hd] at h
  · intro e logs he hd
    cases e with
    | activityDefective m => simp [PyExn.isDefective] at he
    | zeroDivisionError => simp [integritycheck, hd]
    | unicodeDecodeError m => simp [integritycheck, hd]
  · intro msg hext hdec
    simp [integritycheck, dispatchCheck, hext, check_gpx, hdec]

/-- Witness for C4: non-UTF-8 bytes in a `.gpx` file make the decode error
escape `integritycheck` uncaught. -/
theorem classified_failures_contained_witness :
    integritycheck (fun _ => FitOutcome.parsed [] none)
        (fun _ => GpxOutcome.decodeError "invalid start byte")
        (Activity.mk "track.gpx" [255])
      = (Except.error (PyExn.unicodeDecodeError "invalid start byte"), []) :=
  (classified_failures_contained (fun _ => FitOutcome.parsed [] none)
      (fun _ => GpxOutcome.decodeError "invalid start byte")
      (Activity.mk "track.gpx" [255])).2.2
    "invalid start byte" (by decide) rfl

/-- Claim C7: when the file name does not contain `"ride"`
(case-insensitively), `check_gpx` collects no power or heart-rate readings,
and a successfully parsed document passes with nothing logged — success
depends only on the XML parse. -/
theorem check_gpx_no_ride_skips (gpxpyParse : List Nat → GpxOutcome)
    (a : Activity) (g : Gpx)
    (hride : hasRide a.name = false)
    (hok : gpxpyParse a.fileobj = GpxOutcome.ok g) :
    gpxPowerReadings a.name g = [] ∧
    gpxHrReadings a.name g = [] ∧
    check_gpx gpxpyParse a = (Except.ok (), []) := by
  have hp : gpxPowerReadings a.name g = [] := by
    simp [gpxPowerReadings, hride]
  have hh : gpxHrReadings a.name g = [] := by
    simp [gpxHrReadings, hride]
  refine ⟨hp, hh, ?_⟩
  simp [check_gpx, hok, hp, hh]

/-- Witness for C7: `walk.gpx` parses to a document that does contain a power
extension, yet nothing is collected and the check passes silently. -/
theorem check_gpx_no_ride_skips_witness :
    gpxPowerReadings "walk.gpx"
        (Gpx.mk [GpxTrack.mk [GpxSegment.mk [GpxPoint.mk
          [GpxExtElem.mk "power" 250 []]]]]) = [] ∧
    gpxHrReadings "walk.gpx"
        (Gpx.mk [GpxTrack.mk [GpxSegment.mk [GpxPoint.mk
          [GpxExtElem.mk "power" 250 []]]]]) = [] ∧
    check_gpx
        (fun _ => GpxOutcome.ok
          (Gpx.mk [GpxTrack.mk [GpxSegment.mk [GpxPoint.mk
            [GpxExtElem.mk "power" 250 []]]]]))
        (Activity.mk "walk.gpx" [60])
      = (Except.ok (), []) :=
  check_gpx_no_ride_skips _ (Activity.mk "walk.gpx" [60]) _ (by decide) rfl

/-- The activities the driver builds: exactly the targets passing the
case-insensitive `.fit` / `.gpx` suffix test, in order, with their bytes. -/
theorem collectStreams_fst (fs : String → List Nat) (targets : List String) :
    (collectStreams fs targets).1
      = (targets.filter keepFile).map (fun f => Activity.mk f (fs f)) := by
  induction targets with
  | nil => simp [collectStreams]
  | cons file rest ih =>
    cases hk : keepFile file
    · simp [collectStreams, List.filter_cons, hk, ih]
    · simp [collectStreams, List.filter_cons, hk, ih]

/-- The driver's debug log: one `File skipped:` line per rejected target. -/
theorem collectStreams_snd (fs : String → List Nat) (targets : List String) :
    (collectStreams fs targets).2
      = (targets.filter (fun f => !(keepFile f))).map
          (fun f => LogLine.mk LogLevel.debug ("File skipped: " ++ f)) := by
  induction targets with
  | nil => simp [collectStreams]
  | cons file rest ih =>
    cases hk : keepFile file
    · simp [collectStreams, List.filter_cons, hk, ih]
    · simp [collectStreams, List.filter_cons, hk, ih]

/-- Claim C8: the driver constructs an Activity for exactly the targets whose
name ends in `.fit` or `.gpx` case-insensitively; every other path gets a
debug-level skip note, never becomes an Activity, and never receives a
verdict (the verdict list pairs one-to-one with the constructed activities). -/
theorem driver_activity_set (fs : String → List Nat) (targets : List String) :
    (collectStreams fs targets).1
        = (targets.filter keepFile).map (fun f => Activity.mk f (fs f)) ∧
    (collectStreams fs targets).2
        = (targets.filter (fun f => !(keepFile f))).map
            (fun f => LogLine.mk LogLevel.debug ("File skipped: " ++ f)) ∧
    (∀ f, keepFile f = false →
        ∀ a ∈ (collectStreams fs targets).1, a.name ≠ f) ∧
    (∀ (fitFileParse : List Nat → FitOutcome)
        (gpxpyParse : List Nat → GpxOutcome) (bs : List Bool)
        (logs : List LogLine),
        runChecks fitFileParse gpxpyParse (collectStreams fs targets).1
            = (Except.ok bs, logs) →
        bs.length = (targets.filter keepFile).length) := by
  refine ⟨collectStreams_fst fs targets, collectStreams_snd fs targets, ?_, ?_⟩
  · intro f hkf a ha hname
    rw [collectStreams_fst] at ha
    simp only [List.mem_map, List.mem_filter] at ha
    obtain ⟨f', ⟨hmem, hkeep⟩, rfl⟩ := ha
    rw [show (Activity.mk f' (fs f')).name = f' from rfl] at hname
    rw [hname] at hkeep
    rw [hkf] at hkeep
    exact Bool.false_ne_true hkeep
  · intro fitFileParse gpxpyParse bs logs h
    have h2 := runChecks_length fitFileParse gpxpyParse
      ((collectStreams fs targets).1) bs logs h
    rw [collectStreams_fst, List.length_map] at h2
    exact h2

/-- Witness for C8: of `ride1.fit`, `lap2.txt`, `course.gpx` only the first
and third become Activities; the `.txt` file is skipped with a debug note;
a full run issues exactly two verdicts. -/
theorem driver_activity_set_witness :
    (collectStreams (fun _ => [1]) ["ride1.fit", "lap2.txt", "course.gpx"]).1
        = [Activity.mk "ride1.fit" [1], Activity.mk "course.gpx" [1]] ∧
    (collectStreams (fun _ => [1]) ["ride1.fit", "lap2.txt", "course.gpx"]).2
        = [LogLine.mk LogLevel.debug "File skipped: lap2.txt"] ∧
    ([false, false] : List Bool).length
        = (["ride1.fit", "lap2.txt", "course.gpx"].filter keepFile).length := by
  have h := driver_activity_set (fun _ => [1]) ["ride1.fit", "lap2.txt", "course.gpx"]
  refine ⟨h.1.trans (by decide), h.2.1.trans (by decide), ?_⟩
  exact h.2.2.2 (fun _ => FitOutcome.ctorHeaderError "x")
    (fun _ => GpxOutcome.malformedXml "y") [false, false]
    [LogLine.mk LogLevel.error "ride1.fit ride1.fit truncated",
     LogLine.mk LogLevel.error "course.gpx course.gpx - y"] (by decide)

/-- Claim C1 (divergence from the spec): for a binary-format file that opens
fine but yields no power readings, the divide-by-zero during averaging is
NOT swallowed — `check_fit`'s except clause lists only the four fitparse
errors, so the `ZeroDivisionError` escapes `check_fit` and escapes
`integritycheck` (which catches only `ActivityDefective`), aborting the
run instead of passing structurally. -/
theorem check_fit_empty_readings_zero_div_escapes :
    check_fit (fun _ => FitOutcome.parsed [[RecordData.mk "heart_rate" 150]] none)
        (Activity.mk "nopower.fit" [14])
      = (Except.error PyExn.zeroDivisionError, []) ∧
    integritycheck
        (fun _ => FitOutcome.parsed [[RecordData.mk "heart_rate" 150]] none)
        (fun _ => GpxOutcome.ok (Gpx.mk [])) (Activity.mk "nopower.fit" [14])
      = (Except.error PyExn.zeroDivisionError, []) := by
  constructor
  · decide
  · decide

/-- Counterexample to Claim C2 as stated: a "ride"-named GPX input with one
power reading (N = 1 > 0) and no heart-rate readings logs NO average at all
(the heart-rate mean's divide-by-zero is caught and the whole report is
skipped), so no reported average power exists to equal round(sum(p)/N). -/
theorem check_gpx_power_without_hr_unreported :
    gpxPowerReadings "ride.gpx"
        (Gpx.mk [GpxTrack.mk [GpxSegment.mk [GpxPoint.mk
          [GpxExtElem.mk "power" 100 []]]]]) = [100] ∧
    check_gpx
        (fun _ => GpxOutcome.ok (Gpx.mk [GpxTrack.mk [GpxSegment.mk [GpxPoint.mk
          [GpxExtElem.mk "power" 100 []]]]]))
        (Activity.mk "ride.gpx" [60])
      = (Except.ok (), []) := by
  constructor
  · decide
  · decide

/-- Claim C2 as amended: for a "ride"-named XML input, when both the power
list (N > 0) and the heart-rate list (M > 0) are non-empty the reported
average power is round(sum(p)/N) (and average HR is round(sum(hr)/M)); when
N = 0 — or M = 0 — no average is reported and the check still passes with
no exception escaping. -/
theorem check_gpx_ride_averages (gpxpyParse : List Nat → GpxOutcome)
    (a : Activity) (g : Gpx)
    (hride : hasRide a.name = true)
    (hok : gpxpyParse a.fileobj = GpxOutcome.ok g) :
    (gpxPowerReadings a.name g ≠ [] → gpxHrReadings a.name g ≠ [] →
        check_gpx gpxpyParse a
          = (Except.ok (),
             [avgLine a.name
               (pyRound (gpxPowerReadings a.name g).sum
                 ((gpxPowerReadings a.name g).length : Int))
               (pyRound (gpxHrReadings a.name g).sum
                 ((gpxHrReadings a.name g).length : Int))])) ∧
    (gpxPowerReadings a.name g = [] →
        check_gpx gpxpyParse a = (Except.ok (), [])) ∧
    (gpxHrReadings a.name g = [] →
        check_gpx gpxpyParse a = (Except.ok (), [])) := by
  refine ⟨?_, ?_, ?_⟩
  · intro hp hh
    simp [check_gpx, hok, List.length_eq_zero, hp, hh]
  · intro hp
    simp [check_gpx, hok, hp]
  · intro hh
    rcases hp : gpxPowerReadings a.name g with _ | ⟨x, xs⟩
    · simp [check_gpx, hok, hp]
    · simp [check_gpx, hok, hp, hh]

/-- Witness for C2 (amended): a ride file with powers [100, 200] and heart
rates [150, 160] reports average power 150 and average HR 155 and passes. -/
theorem check_gpx_ride_averages_witness :
    check_gpx
        (fun _ => GpxOutcome.ok (Gpx.mk [GpxTrack.mk [GpxSegment.mk
          [GpxPoint.mk
            [GpxExtElem.mk "power" 100 [],
             GpxExtElem.mk (schema ++ "TrackPointExtension") 0
               [GpxSubElem.mk (schema ++ "hr") 150]],
           GpxPoint.mk
            [GpxExtElem.mk "power" 200 [],
             GpxExtElem.mk (schema ++ "TrackPointExtension") 0
               [GpxSubElem.mk (schema ++ "hr") 160]]]]]))
        (Activity.mk "ride2.gpx" [60])
      = (Except.ok (), [avgLine "ride2.gpx" 150 155]) := by
  have h := (check_gpx_ride_averages
      (fun _ => GpxOutcome.ok (Gpx.mk [GpxTrack.mk [GpxSegment.mk
        [GpxPoint.mk
          [GpxExtElem.mk "power" 100 [],
           GpxExtElem.mk (schema ++ "TrackPointExtension") 0
             [GpxSubElem.mk (schema ++ "hr") 150]],
         GpxPoint.mk
          [GpxExtElem.mk "power" 200 [],
           GpxExtElem.mk (schema ++ "TrackPointExtension") 0
             [GpxSubElem.mk (schema ++ "hr") 160]]]]]))
      (Activity.mk "ride2.gpx" [60])
      (Gpx.mk [GpxTrack.mk [GpxSegment.mk
        [GpxPoint.mk
          [GpxExtElem.mk "power" 100 [],
           GpxExtElem.mk (schema ++ "TrackPointExtension") 0
             [GpxSubElem.mk (schema ++ "hr") 150]],
         GpxPoint.mk
          [GpxExtElem.mk "power" 200 [],
           GpxExtElem.mk (schema ++ "TrackPointExtension") 0
             [GpxSubElem.mk (schema ++ "hr") 160]]]]])
      (by decide) rfl).1 (by decide) (by decide)
  exact h.trans (by decide)
